import Mathlib

/-!
Verification of the sensor response-aggregation engine of the bmcweb fork
(`src/redfish-core/lib/sensors.hpp`, `OCP_CUSTOM_FLAG` configuration, which is
the variant the chassis Thermal/Power handlers use).

Shallow embedding conventions:
* `nlohmann::json` values are modelled by the inductive `Json`; object member
  order is the insertion order of an association list (the claims under study
  never depend on member order).
* C++ `double` values are modelled exactly as rationals `ℚ`; `std::pow(10, s)`
  for an integer exponent `s` is modelled as the exact rational `10 ^ s`.
  Because the source's accumulators are fixed-width (`int`, `int64_t`) and its
  floating arithmetic rounds, every theorem that quantifies over raw values
  either carries range hypotheses confining it to inputs where the C
  conversions are defined and the floating computation is exact, or evaluates
  at concrete in-range, rounding-robust inputs.
* `boost::algorithm::split(v, s, boost::is_any_of("/"))` is modelled by
  `boostSplitSlash` (a leading separator yields a leading empty token).
* The crow response sink is not under `src/` (only the umbrella header
  `crow.h` is); its fields are modelled from the spec's description of the
  response sink: a status, a JSON body, and a completion mark.
-/

/-- JSON-like tree mirroring `nlohmann::json`.  `int` is a
`number_integer`, `float` a `number_float` (modelled exactly as a rational);
the two are distinct JSON representations even when numerically equal. -/
inductive Json where
  | null : Json
  | str : String → Json
  | int : Int → Json
  | float : ℚ → Json
  | bool : Bool → Json
  | arr : List Json → Json
  | obj : List (String × Json) → Json

namespace Json

/-- Member update for an object field list: replace the first binding of `k`
in place, or append a new binding. -/
def setField : List (String × Json) → String → Json → List (String × Json)
  | [], k, v => [(k, v)]
  | (k', v') :: fs, k, v =>
      if k' = k then (k, v) :: fs else (k', v') :: setField fs k v

/-- `j[k] = v` on an object (`operator[]` creates the member); a `null`
value is converted to an object first, as `nlohmann::json::operator[]` does. -/
def objSet : Json → String → Json → Json
  | .obj fs, k, v => .obj (setField fs k v)
  | _, k, v => .obj [(k, v)]

/-- Member read: `j[k]` as a value, `null` when absent (the read-only view
used in the proofs below). -/
def objGet : Json → String → Json
  | .obj fs, k => ((fs.find? (fun f => f.1 = k)).map Prod.snd).getD .null
  | _, _ => .null

/-- `j[k1][k2] = v`: read-or-create the nested object, update it, store it
back, as the chained `operator[]` calls do. -/
def objSet2 (j : Json) (k1 k2 : String) (v : Json) : Json :=
  j.objSet k1 ((j.objGet k1).objSet k2 v)

/-- The element list of an array value; any non-array (including `null`)
reads as the empty list, mirroring the `is_array() == false` reset in
`getChassisData`. -/
def asArrayElems : Json → List Json
  | .arr xs => xs
  | _ => []

end Json

/-- HTTP statuses actually written by the code under study
(`boost::beast::http::status` values). -/
inductive HStatus where
  | ok : HStatus
  | internalServerError : HStatus
  | notFound : HStatus
deriving DecidableEq, Repr

/-- Modelled from the spec: the crow response sink (`crow::Response`, not
under `src/`) holds an HTTP status, the accumulated JSON body
(`res.jsonValue`), and a completion mark; `endCount` counts how many times
`res.end()` has run, so "finalized exactly once" is expressible. -/
structure Response where
  status : HStatus
  jsonValue : Json
  endCount : Nat

/-- `SensorAsyncResp::setErrorStatus`:
`res.result(boost::beast::http::status::internal_server_error)`. -/
def setErrorStatus (r : Response) : Response :=
  { r with status := .internalServerError }

/-- `SensorAsyncResp::~SensorAsyncResp`: if the recorded status is
`internal_server_error`, reset `res.jsonValue` to the empty JSON object,
then `res.end()`. -/
def sensorAsyncRespDtor (r : Response) : Response :=
  let r' :=
    if r.status = HStatus.internalServerError then
      { r with jsonValue := Json.obj [] }
    else r
  { r' with endCount := r'.endCount + 1 }

/-- The request-scoped configuration carried by `SensorAsyncResp` besides the
response reference: the chassis id, the requested sensor type filter and the
chassis sub-node name (`OCP_CUSTOM_FLAG` constructor). -/
structure SensorAsyncResp where
  chassisId : String
  types : List String
  chassisSubNode : String

/-- The reference-counted completion token: a `std::shared_ptr<SensorAsyncResp>`
use count together with the response it will finalize.  The destructor of the
last owner runs `sensorAsyncRespDtor`. -/
structure Scope where
  useCount : Nat
  resp : Response

/-- The only two operations the asynchronous operations perform on the
shared-pointer token: copying it (`clone`) and dropping a copy (`release`).
There is no explicit "done" operation. -/
inductive ScopeEvent where
  | clone : ScopeEvent
  | release : ScopeEvent
deriving DecidableEq, Repr

/-- One shared-pointer event: `clone` increments the use count; `release`
decrements it, and the release that drops the count to zero runs the
`SensorAsyncResp` destructor (finalization). -/
def scopeStep (s : Scope) : ScopeEvent → Scope
  | .clone => { s with useCount := s.useCount + 1 }
  | .release =>
      if s.useCount = 1 then
        { useCount := 0, resp := sensorAsyncRespDtor s.resp }
      else
        { s with useCount := s.useCount - 1 }

/-- Run a sequence of shared-pointer events. -/
def scopeRun (s : Scope) (t : List ScopeEvent) : Scope := t.foldl scopeStep s

/-- `sdbusplus::message::variant<int64_t, double>`; `double` is modelled
exactly as a rational. -/
inductive SensorVariant where
  | int64 : Int → SensorVariant
  | double : ℚ → SensorVariant

/-- One interface's property map (`flat_map<std::string, SensorVariant>`),
as an association list queried by key. -/
abbrev PropertyMap := List (String × SensorVariant)

/-- The interface dictionary of one managed object
(`flat_map<std::string, flat_map<std::string, SensorVariant>>`). -/
abbrev InterfacesDict := List (String × PropertyMap)

/-- The managed-objects payload of one `GetManagedObjects` reply
(`ManagedObjectsVectorType`): object path with its interface dictionary. -/
abbrev ManagedObjectsVectorType := List (String × InterfacesDict)

/-- The dbus sensor value interface name used throughout `sensors.hpp`. -/
def sensorValueInterface : String := "xyz.openbmc_project.Sensor.Value"

/-- `std::pow(10, s)` for the integer exponent `s`, modelled exactly; the
`double` result of `std::pow` rounds for negative `s`, which is why no general
theorem below asserts program behavior for symbolic negative scales. -/
def ratPow10 : Int → ℚ
  | .ofNat n => (10 : ℚ) ^ n
  | .negSucc n => 1 / (10 : ℚ) ^ (n + 1)

/-- Truncation toward zero, as the C++ floating-to-integral conversion does.
The conversion is defined in C++ only when the truncated value is
representable in the destination type; out-of-range inputs are undefined
behavior in the source, so theorems quantifying over values carry explicit
range hypotheses and assert nothing outside them. -/
def cIntTrunc (q : ℚ) : Int := q.num.tdiv (q.den : Int)

/-- The value of the C `int` object
`value = *int64Value * std::pow(10, scaleMultiplier)` in the `int64_t` branch,
under the exact-arithmetic model: `v * 10 ^ s` for `s ≥ 0` and `v` t-divided
by `10 ^ (-s)` for negative `s` (`scaleInt64_eq_trunc` below proves this equal
to the truncation of the exact product `v * 10 ^ s`).  The source accumulator
is a 32-bit `int` and the product a rounded `double`, so general theorems
restrict themselves to nonnegative scales with the product inside `int` range
(where pow, product and conversion are all exact) and treat negative scales
only at concrete rounding-robust inputs. -/
def scaleInt64 (v s : Int) : Int :=
  match s with
  | .ofNat n => v * 10 ^ n
  | .negSucc n => v.tdiv (10 ^ (n + 1))

/-- The body of the property loop of `objectInterfacesToJson` for one entry
`p = (dbus interface, dbus property, redfish property)`: look the property up
and store the (scaled) value into `sensor_json[std::get<2>(p)]`.
In the `int64_t` branch the accumulator `value` has C type `int`
(`auto value = 0`), so both stores (`static_cast<int64_t>(value)` and
`valueIt = value`) put a truncated integer into the JSON. -/
def writeProperty (forceToInt : Bool) (scaleMultiplier : Int)
    (interfacesDict : InterfacesDict) (j : Json)
    (p : String × String × String) : Json :=
  match interfacesDict.lookup p.1 with
  | none => j
  | some interfaceProperties =>
    match interfaceProperties.lookup p.2.1 with
    | none => j
    | some valueVariant =>
      match valueVariant with
      | .int64 v =>
        let value : Int :=
          if p.2.1 = "SensorID" then v
          else scaleInt64 v scaleMultiplier
        if forceToInt || 0 ≤ scaleMultiplier then
          j.objSet p.2.2 (.int value)
        else
          j.objSet p.2.2 (.int value)
      | .double d =>
        let value : ℚ := d * ratPow10 scaleMultiplier
        if !forceToInt then
          j.objSet p.2.2 (.float value)
        else
          j.objSet p.2.2 (.int (cIntTrunc value))

/-- `objectInterfacesToJson` (`sensors.hpp`): build the JSON representation of
one sensor from its interface dictionary, mutating `sensor_json`.  Returns the
updated `sensor_json` (the C++ mutates it by reference).  An object without
the value interface, or with an unrecognized sensor type, returns early with
whatever had been written up to that point. -/
def objectInterfacesToJson (sensorName sensorType : String)
    (interfacesDict : InterfacesDict) (sensor_json : Json) : Json :=
  match interfacesDict.lookup sensorValueInterface with
  | none => sensor_json
  | some valueIface =>
    let scaleMultiplier : Int :=
      match valueIface.lookup "Scale" with
      | some (.int64 v) => v
      | _ => 0
    let j := sensor_json.objSet "MemberId" (.str sensorName)
    let j := j.objSet "Name" (.str sensorName)
    let j := j.objSet2 "Status" "State" (.str "Enabled")
    let j := j.objSet2 "Status" "Health" (.str "OK")
    let branch : Option (String × Json × Bool) :=
      if sensorType = "temperature" then
        some ("ReadingCelsius",
              j.objSet "@odata.type" (.str "#Thermal.v1_3_0.Temperature"),
              false)
      else if sensorType = "fan" ∨ sensorType = "fan_tach" then
        some ("Reading",
              (j.objSet "ReadingUnits" (.str "RPM")).objSet "@odata.type"
                (.str "#Thermal.v1_3_0.Fan"),
              true)
      else if sensorType = "voltage" then
        some ("ReadingVolts",
              j.objSet "@odata.type" (.str "#Power.v1_0_0.Voltage"),
              false)
      else if sensorType = "power" ∨ sensorType = "current" then
        some ("LastPowerOutputWatts",
              j.objSet "@odata.type" (.str "#Power.v1_5_0.PowerSupply"),
              false)
      else
        none
    match branch with
    | none => j
    | some u =>
      let unitName := u.1
      let j := u.2.1
      let forceToInt := u.2.2
      let properties : List (String × String × String) :=
        [ (sensorValueInterface, "Value", unitName),
          ("xyz.openbmc_project.Sensor.Threshold.Warning", "WarningHigh",
           "UpperThresholdNonCritical"),
          ("xyz.openbmc_project.Sensor.Threshold.Warning", "WarningLow",
           "LowerThresholdNonCritical"),
          ("xyz.openbmc_project.Sensor.Threshold.Critical", "CriticalHigh",
           "UpperThresholdCritical"),
          ("xyz.openbmc_project.Sensor.Threshold.Critical", "CriticalLow",
           "LowerThresholdCritical"),
          ("xyz.openbmc_project.Sensor.Threshold.Fatal", "FatalHigh",
           "UpperThresholdFatal"),
          ("xyz.openbmc_project.Sensor.Threshold.Fatal", "FatalLow",
           "LowerThresholdFatal") ]
        ++ (if sensorType = "temperature" then
              [ (sensorValueInterface, "MinValue", "MinReadingRangeTemp"),
                (sensorValueInterface, "MaxValue", "MaxReadingRangeTemp"),
                (sensorValueInterface, "SensorID", "SensorNumber") ]
            else if sensorType = "voltage" then
              [ (sensorValueInterface, "SensorID", "SensorNumber") ]
            else if sensorType = "power" then
              []
            else
              [ (sensorValueInterface, "MinValue", "MinReadingRange"),
                (sensorValueInterface, "MaxValue", "MaxReadingRange") ])
      properties.foldl
        (fun j p => writeProperty forceToInt scaleMultiplier interfacesDict j p)
        j

/-- `boost::algorithm::split(v, s, boost::is_any_of("/"))` on a character
list: cut at every separator, keeping empty tokens (a leading separator
yields a leading empty token; the empty input yields one empty token). -/
def splitSlashChars : List Char → List (List Char)
  | [] => [[]]
  | c :: t =>
    match splitSlashChars t with
    | [] => [[]]
    | g :: gs => if c = '/' then [] :: g :: gs else (c :: g) :: gs

/-- `boost::algorithm::split` of a string on the separator `'/'`. -/
def boostSplitSlash (s : String) : List String :=
  (splitSlashChars s.toList).map List.asString

/-- `needle` occurs as a contiguous run inside the character list. -/
def listHasInfix (needle : List Char) : List Char → Bool
  | [] => needle.isPrefixOf ([] : List Char)
  | c :: t => needle.isPrefixOf (c :: t) || listHasInfix needle t

/-- `strstr(hay, needle) != nullptr`: `needle` is a substring of `hay`. -/
def strstrFound (hay needle : String) : Bool :=
  listHasInfix needle.toList hay.toList

/-- The per-object body of the `getManagedObjectsCb` loop in `getChassisData`
(`OCP_CUSTOM_FLAG` variant): split the object path, skip paths shorter than 6
segments, read the sensor type from segment index 4 and the sensor name from
index 5, skip types failing the `strstr` match against the requested type
filter, pick the category array, and append one entry initialised with
`@odata.id` and filled by `objectInterfacesToJson`. -/
def processObject (asyncResp : SensorAsyncResp) (jsonValue : Json)
    (objPath : String) (ifaces : InterfacesDict) : Json :=
  let split := boostSplitSlash objPath
  if split.length < 6 then jsonValue
  else
    let sensorType := split.getD 4 ""
    let sensorName := split.getD 5 ""
    if asyncResp.types.any (fun t => strstrFound t sensorType) = false then
      jsonValue
    else
      let fieldName : Option String :=
        if sensorType = "temperature" then some "Temperatures"
        else if sensorType = "fan" ∨ sensorType = "fan_tach" then some "Fans"
        else if sensorType = "voltage" then some "Voltages"
        else if sensorType = "current" then some "PowerSupplies"
        else if sensorType = "power" then some "PowerSupplies"
        else none
      match fieldName with
      | none => jsonValue
      | some fieldName =>
        let arrElems := (jsonValue.objGet fieldName).asArrayElems
        let sensorJson :=
          (Json.obj []).objSet "@odata.id"
            (.str ("/redfish/v1/Chassis/" ++ asyncResp.chassisId ++ "/" ++
                   asyncResp.chassisSubNode ++ "#/" ++ sensorName))
        let sensorJson :=
          objectInterfacesToJson sensorName sensorType ifaces sensorJson
        jsonValue.objSet fieldName (.arr (arrElems ++ [sensorJson]))

/-- One invocation of the `getManagedObjectsCb` completion handler: a dbus
error code marks the scope errored and returns; otherwise every returned
managed object is processed in order into `res.jsonValue`. -/
def getManagedObjectsCb (asyncResp : SensorAsyncResp) (r : Response)
    (ec : Nat) (resp : ManagedObjectsVectorType) : Response :=
  if ec ≠ 0 then setErrorStatus r
  else
    { r with
      jsonValue :=
        resp.foldl (fun jv o => processObject asyncResp jv o.1 o.2)
          r.jsonValue }

/-- A whole request's worth of Stage-2 completions, applied in the order the
event loop delivers them; each element is one `GetManagedObjects` reply
(error code, payload). -/
def runCallbacks (asyncResp : SensorAsyncResp) (r : Response)
    (events : List (Nat × ManagedObjectsVectorType)) : Response :=
  events.foldl (fun r e => getManagedObjectsCb asyncResp r e.1 e.2) r

/-- `cIntTrunc` of an integer is that integer. -/
theorem cIntTrunc_intCast (k : Int) : cIntTrunc (k : ℚ) = k := by
  simp [cIntTrunc, Rat.num_intCast, Rat.den_intCast]

/-- `cIntTrunc` commutes with negation. -/
theorem cIntTrunc_neg (q : ℚ) : cIntTrunc (-q) = -cIntTrunc q := by
  simp [cIntTrunc, Rat.neg_num, Rat.neg_den, Int.neg_tdiv]

/-- Truncation toward zero of an integer divided by a natural agrees with
`Int.tdiv`. -/
theorem cIntTrunc_intCast_div_natCast (v : Int) (d : Nat) :
    cIntTrunc ((v : ℚ) / (d : ℚ)) = v.tdiv d := by
  rcases le_or_lt 0 v with hv | hv
  · have hq : (0 : ℚ) ≤ (v : ℚ) / (d : ℚ) := by positivity
    have hnum : 0 ≤ ((v : ℚ) / (d : ℚ)).num := Rat.num_nonneg.mpr hq
    have hden : (0 : Int) ≤ (((v : ℚ) / (d : ℚ)).den : Int) := by positivity
    calc cIntTrunc ((v : ℚ) / (d : ℚ))
        = ((v : ℚ) / (d : ℚ)).num / (((v : ℚ) / (d : ℚ)).den : Int) := by
          simpa [cIntTrunc] using Int.tdiv_eq_ediv hnum hden
      _ = ⌊(v : ℚ) / (d : ℚ)⌋ := (Rat.floor_def).symm
      _ = v / (d : Int) := Rat.floor_intCast_div_natCast v d
      _ = v.tdiv d := (Int.tdiv_eq_ediv hv (by positivity)).symm
  · have h1 : cIntTrunc (((-v : Int) : ℚ) / (d : ℚ)) = (-v).tdiv d := by
      rcases le_or_lt 0 (-v) with hv' | hv'
      · have hq : (0 : ℚ) ≤ ((-v : Int) : ℚ) / (d : ℚ) := by
          have : (0 : ℚ) ≤ ((-v : Int) : ℚ) := by exact_mod_cast hv'
          positivity
        have hnum : 0 ≤ (((-v : Int) : ℚ) / (d : ℚ)).num := Rat.num_nonneg.mpr hq
        have hden : (0 : Int) ≤ ((((-v : Int) : ℚ) / (d : ℚ)).den : Int) := by
          positivity
        calc cIntTrunc (((-v : Int) : ℚ) / (d : ℚ))
            = (((-v : Int) : ℚ) / (d : ℚ)).num /
                ((((-v : Int) : ℚ) / (d : ℚ)).den : Int) := by
              simpa [cIntTrunc] using Int.tdiv_eq_ediv hnum hden
          _ = ⌊((-v : Int) : ℚ) / (d : ℚ)⌋ := (Rat.floor_def).symm
          _ = (-v) / (d : Int) := Rat.floor_intCast_div_natCast (-v) d
          _ = (-v).tdiv d := (Int.tdiv_eq_ediv hv' (by positivity)).symm
      · omega
    have hswap : ((v : ℚ) / (d : ℚ)) = -(((-v : Int) : ℚ) / (d : ℚ)) := by
      push_cast
      ring
    rw [hswap, cIntTrunc_neg, h1, Int.neg_tdiv, neg_neg]

/-- The integer scaling implemented by the C `int` accumulator equals the
truncation toward zero of the exact product `v * 10 ^ s`. -/
theorem scaleInt64_eq_trunc (v s : Int) :
    scaleInt64 v s = cIntTrunc ((v : ℚ) * ratPow10 s) := by
  cases s with
  | ofNat n =>
      have : ((v : ℚ) * ratPow10 (.ofNat n)) = ((v * 10 ^ n : Int) : ℚ) := by
        simp only [ratPow10]
        push_cast
        ring
      rw [this, cIntTrunc_intCast]
      rfl
  | negSucc n =>
      have : ((v : ℚ) * ratPow10 (.negSucc n)) =
          (v : ℚ) / ((10 ^ (n + 1) : Nat) : ℚ) := by
        simp only [ratPow10]
        push_cast
        ring
      rw [this, cIntTrunc_intCast_div_natCast]
      show v.tdiv ((10 : Int) ^ (n + 1)) = v.tdiv ((10 ^ (n + 1) : Nat) : Int)
      norm_cast

/-- Reading back the key just written by `setField` yields the new value. -/
theorem find_setField_same (fs : List (String × Json)) (k : String) (v : Json) :
    (Json.setField fs k v).find? (fun f => f.1 = k) = some (k, v) := by
  induction fs with
  | nil => simp [Json.setField]
  | cons hd tl ih =>
      obtain ⟨k0, v0⟩ := hd
      by_cases h : k0 = k
      · subst h
        simp [Json.setField, List.find?]
      · simp [Json.setField, h, List.find?, ih]

/-- `setField` leaves the lookup of every other key unchanged. -/
theorem find_setField_ne (fs : List (String × Json)) (k k' : String) (v : Json)
    (h : k' ≠ k) :
    (Json.setField fs k v).find? (fun f => f.1 = k') =
      fs.find? (fun f => f.1 = k') := by
  induction fs with
  | nil => simp [Json.setField, List.find?, Ne.symm h]
  | cons hd tl ih =>
      obtain ⟨k0, v0⟩ := hd
      by_cases hh : k0 = k
      · subst hh
        simp [Json.setField, List.find?, Ne.symm h]
      · simp [Json.setField, hh, List.find?, ih]

/-- Reading the member just written. -/
theorem objGet_objSet_same (j : Json) (k : String) (v : Json) :
    (j.objSet k v).objGet k = v := by
  cases j <;> simp [Json.objSet, Json.objGet, find_setField_same, List.find?]

/-- Writing one member leaves every other member unchanged. -/
theorem objGet_objSet_ne (j : Json) (k k' : String) (v : Json) (h : k' ≠ k) :
    (j.objSet k v).objGet k' = j.objGet k' := by
  cases j <;>
    simp [Json.objSet, Json.objGet, find_setField_ne _ _ _ _ h, List.find?,
      Ne.symm h]

/-- C9: at finalization the destructor resets the body to the empty JSON
object exactly when the recorded status is `internal_server_error`; any other
status (for example `not_found`) keeps the accumulated document, and the
response is ended. -/
theorem dtor_resets_body_iff_internal_error (r : Response) :
    (sensorAsyncRespDtor r).jsonValue =
      (if r.status = HStatus.internalServerError then Json.obj []
       else r.jsonValue) ∧
    (sensorAsyncRespDtor r).status = r.status ∧
    (sensorAsyncRespDtor r).endCount = r.endCount + 1 := by
  by_cases h : r.status = HStatus.internalServerError <;>
    simp [sensorAsyncRespDtor, h]

/-- C1: a scope shared among `N` owners, each of which releases exactly once,
finalizes the response exactly once: after `k` of the `N` releases the
response has been ended once when `k = N` and not at all when `k < N`.
Finalization is triggered by `release` itself (`scopeStep` has no separate
"done" event). -/
theorem scope_finalizes_exactly_once (N k : Nat) (r : Response)
    (h0 : r.endCount = 0) (hN : 1 ≤ N) (hk : k ≤ N) :
    (scopeRun ⟨N, r⟩ (List.replicate k .release)).resp.endCount =
      if k = N then 1 else 0 := by
  induction k generalizing N r with
  | zero =>
      have : ¬(0 = N) := by omega
      simp [scopeRun, this, h0]
  | succ k ih =>
      rw [List.replicate_succ]
      by_cases h1 : N = 1
      · subst h1
        have hk0 : k = 0 := by omega
        subst hk0
        simp [scopeRun, scopeStep, sensorAsyncRespDtor, h0]
        by_cases he : r.status = HStatus.internalServerError <;> simp [he, h0]
      · have hstep :
            scopeStep ⟨N, r⟩ ScopeEvent.release = ⟨N - 1, r⟩ := by
          simp [scopeStep, h1]
        have : scopeRun ⟨N, r⟩ (ScopeEvent.release :: List.replicate k .release) =
            scopeRun ⟨N - 1, r⟩ (List.replicate k .release) := by
          simp [scopeRun, hstep]
        rw [this, ih (N - 1) r h0 (by omega) (by omega)]
        by_cases hkn : k + 1 = N
        · rw [if_pos (show k = N - 1 by omega), if_pos hkn]
        · rw [if_neg (show ¬(k = N - 1) by omega), if_neg hkn]

/-- C1 witness: three owners, three releases, the response is ended once. -/
theorem scope_finalizes_exactly_once_witness :
    (scopeRun ⟨3, ⟨HStatus.ok, Json.obj [], 0⟩⟩
        (List.replicate 3 .release)).resp.endCount = if 3 = 3 then 1 else 0 :=
  scope_finalizes_exactly_once 3 3 ⟨HStatus.ok, Json.obj [], 0⟩ rfl
    (by decide) (by decide)

/-- The status recorded after one Stage-2 completion: a dbus error sets
`internal_server_error`; a successful completion leaves the status alone. -/
theorem getManagedObjectsCb_status (a : SensorAsyncResp) (r : Response)
    (ec : Nat) (resp : ManagedObjectsVectorType) :
    (getManagedObjectsCb a r ec resp).status =
      if ec ≠ 0 then HStatus.internalServerError else r.status := by
  by_cases h : ec ≠ 0 <;> simp [getManagedObjectsCb, h, setErrorStatus]

/-- Once the error status is recorded, the remaining Stage-2 completions
cannot clear it. -/
theorem runCallbacks_keeps_error (a : SensorAsyncResp) (r : Response)
    (events : List (Nat × ManagedObjectsVectorType))
    (h : r.status = HStatus.internalServerError) :
    (runCallbacks a r events).status = HStatus.internalServerError := by
  induction events generalizing r with
  | nil => simpa [runCallbacks] using h
  | cons e es ih =>
      have : runCallbacks a r (e :: es) =
          runCallbacks a (getManagedObjectsCb a r e.1 e.2) es := rfl
      rw [this]
      apply ih
      rw [getManagedObjectsCb_status]
      by_cases he : e.1 ≠ 0 <;> simp [he, h]

/-- If some Stage-2 completion reported a dbus error, the final status is the
error status. -/
theorem runCallbacks_status_of_error (a : SensorAsyncResp) (r : Response)
    (events : List (Nat × ManagedObjectsVectorType))
    (h : ∃ e ∈ events, e.1 ≠ 0) :
    (runCallbacks a r events).status = HStatus.internalServerError := by
  induction events generalizing r with
  | nil => simp at h
  | cons e es ih =>
      have hrun : runCallbacks a r (e :: es) =
          runCallbacks a (getManagedObjectsCb a r e.1 e.2) es := rfl
      rw [hrun]
      by_cases he : e.1 ≠ 0
      · apply runCallbacks_keeps_error
        rw [getManagedObjectsCb_status]
        simp [he]
      · rcases h with ⟨e', he', hne⟩
        rcases List.mem_cons.mp he' with rfl | hmem
        · exact absurd hne he
        · exact ih _ ⟨e', hmem, hne⟩

/-- C2: if any Stage-2 completion marks the scope errored, the finalized body
is the empty JSON object: nothing written by any completion — including data
written successfully after the error was recorded — survives finalization. -/
theorem error_suppresses_partial_data (a : SensorAsyncResp) (r : Response)
    (events : List (Nat × ManagedObjectsVectorType))
    (h : ∃ e ∈ events, e.1 ≠ 0) :
    (sensorAsyncRespDtor (runCallbacks a r events)).jsonValue = Json.obj [] := by
  have hs := runCallbacks_status_of_error a r events h
  simp [sensorAsyncRespDtor, hs]

/-- C2 witness: one errored completion followed by one successful completion
that writes a temperature entry; the finalized body is still empty. -/
theorem error_suppresses_partial_data_witness :
    (sensorAsyncRespDtor
        (runCallbacks
          ⟨"ch1",
           ["/xyz/openbmc_project/sensors/fan_tach",
            "/xyz/openbmc_project/sensors/temperature"], "Thermal"⟩
          ⟨HStatus.ok, Json.obj [], 0⟩
          [(1, []),
           (0, [("/xyz/openbmc_project/sensors/temperature/t1",
                 [(sensorValueInterface,
                   [("Value", .int64 250)])])])])).jsonValue = Json.obj [] :=
  error_suppresses_partial_data _ _ _
    ⟨(1, []), List.mem_cons_self _ _, by decide⟩

/-- C3 counterexample: a temperature sensor (non-forced category) with the
`int64` raw value 255 and scale -1 projects to the JSON integer 25, but
`v * 10 ^ s = 25.5`: the projected numeric output does not equal `v * 10^s`,
because the accumulator `auto value = 0` has C type `int` and truncates. -/
theorem scaling_exact_value_counterexample :
    (objectInterfacesToJson "t1" "temperature"
        [(sensorValueInterface, [("Value", .int64 255), ("Scale", .int64 (-1))])]
        (Json.obj [])).objGet "ReadingCelsius" = Json.int 25 ∧
      (25 : ℚ) ≠ (255 : ℚ) * ratPow10 (-1) := by
  refine ⟨rfl, ?_⟩
  have h : ratPow10 (-1) = 1 / 10 ^ (0 + 1) := rfl
  rw [h]
  norm_num

/-- `scaleInt64` of a natural-number scale is the exact integer product. -/
theorem scaleInt64_natCast (v : Int) (n : Nat) :
    scaleInt64 v (n : Int) = v * 10 ^ n := rfl

/-- `scaleInt64` at scale zero is the raw value. -/
theorem scaleInt64_zero (v : Int) : scaleInt64 v 0 = v := by
  show v * 10 ^ 0 = v
  simp

/-- `std::pow(10, 0)` is exactly one. -/
theorem ratPow10_zero : ratPow10 0 = 1 := by
  show (10 : ℚ) ^ 0 = 1
  simp

/-- C3 amended: projection is a pure function of the raw input, and on the
domain where the source's fixed-width arithmetic is exact and defined it
scales as follows.  An `int64` raw value `v` with nonnegative scale `s`
projects to the JSON integer `v * 10 ^ s` exactly, provided `s ≤ 22` (so
`std::pow(10, s)` is an exact `double`) and the product lies in the 32-bit
`int` accumulator range (so the `double` product and the `int` conversion are
exact and defined); absence of Scale means `s = 0`, projecting `v` itself
under the same range bound.  A `double` raw value `d` with no Scale projects
unchanged: JSON float `d` on a non-forced category, and the JSON integer
`trunc(d)` on a forced-integer category provided that truncation fits
`int64_t` (the definedness condition of the C++ cast).  With a negative scale
the `int`-typed accumulator truncates toward zero, recorded here at the
concrete rounding-robust input Value 255, Scale -1, which projects to the
JSON integer 25 rather than 25.5.  The range hypotheses are not needed by the
exact-arithmetic model and serve to confine the statement to inputs on which
the model provably coincides with the program. -/
theorem projected_value_scaling (name : String) (v : Int) (s : Nat) (d : ℚ)
    (hs : s ≤ 22)
    (hv : -(2 ^ 31) ≤ v * 10 ^ s ∧ v * 10 ^ s < 2 ^ 31)
    (hv0 : -(2 ^ 31) ≤ v ∧ v < 2 ^ 31)
    (hd : -(2 ^ 63) ≤ cIntTrunc d ∧ cIntTrunc d < 2 ^ 63) :
    (objectInterfacesToJson name "temperature"
        [(sensorValueInterface,
          [("Value", .int64 v), ("Scale", .int64 (s : Int))])]
        (Json.obj [])).objGet "ReadingCelsius" = Json.int (v * 10 ^ s) ∧
    (objectInterfacesToJson name "temperature"
        [(sensorValueInterface, [("Value", .int64 v)])]
        (Json.obj [])).objGet "ReadingCelsius" = Json.int v ∧
    (objectInterfacesToJson name "temperature"
        [(sensorValueInterface, [("Value", .double d)])]
        (Json.obj [])).objGet "ReadingCelsius" = Json.float d ∧
    (objectInterfacesToJson name "fan_tach"
        [(sensorValueInterface, [("Value", .double d)])]
        (Json.obj [])).objGet "Reading" = Json.int (cIntTrunc d) ∧
    (objectInterfacesToJson name "temperature"
        [(sensorValueInterface,
          [("Value", .int64 255), ("Scale", .int64 (-1))])]
        (Json.obj [])).objGet "ReadingCelsius" = Json.int 25 := by
  refine ⟨?_, ?_, ?_, ?_, rfl⟩
  · simp [objectInterfacesToJson, writeProperty, sensorValueInterface,
      Json.objSet2, Json.objSet, Json.objGet, Json.setField, List.lookup,
      List.find?, scaleInt64_natCast]
  · simp [objectInterfacesToJson, writeProperty, sensorValueInterface,
      Json.objSet2, Json.objSet, Json.objGet, Json.setField, List.lookup,
      List.find?, scaleInt64_zero]
  · simp [objectInterfacesToJson, writeProperty, sensorValueInterface,
      Json.objSet2, Json.objSet, Json.objGet, Json.setField, List.lookup,
      List.find?, ratPow10_zero]
  · simp [objectInterfacesToJson, writeProperty, sensorValueInterface,
      Json.objSet2, Json.objSet, Json.objGet, Json.setField, List.lookup,
      List.find?, ratPow10_zero]

/-- C3 witness: v = 42 with scale 2 (in `int` range), and d = 26 (truncation
in `int64_t` range), with every range hypothesis discharged concretely. -/
theorem projected_value_scaling_witness :
    (objectInterfacesToJson "t1" "temperature"
        [(sensorValueInterface,
          [("Value", .int64 42), ("Scale", .int64 ((2 : Nat) : Int))])]
        (Json.obj [])).objGet "ReadingCelsius" =
      Json.int (42 * 10 ^ (2 : Nat)) ∧
    (objectInterfacesToJson "t1" "temperature"
        [(sensorValueInterface, [("Value", .int64 42)])]
        (Json.obj [])).objGet "ReadingCelsius" = Json.int 42 ∧
    (objectInterfacesToJson "t1" "temperature"
        [(sensorValueInterface, [("Value", .double 26)])]
        (Json.obj [])).objGet "ReadingCelsius" = Json.float 26 ∧
    (objectInterfacesToJson "t1" "fan_tach"
        [(sensorValueInterface, [("Value", .double 26)])]
        (Json.obj [])).objGet "Reading" = Json.int (cIntTrunc 26) ∧
    (objectInterfacesToJson "t1" "temperature"
        [(sensorValueInterface,
          [("Value", .int64 255), ("Scale", .int64 (-1))])]
        (Json.obj [])).objGet "ReadingCelsius" = Json.int 25 :=
  projected_value_scaling "t1" 42 2 26 (by decide) (by decide) (by decide)
    (by decide)

/-- C4: evaluation at the failing input.  A temperature object (non-forced
category) with `int64` Value 250 and Scale -1 projects `ReadingCelsius` to
the JSON integer 25 — not the float 25.0 the spec describes — while the fan
half of the claim (Value 4200, no Scale, forced-integer category) does give
the integer 4200.  The third conjunct records that the integer and float
JSON representations are distinct. -/
theorem temperature_negative_scale_integer_output :
    (objectInterfacesToJson "t1" "temperature"
        [(sensorValueInterface, [("Value", .int64 250), ("Scale", .int64 (-1))])]
        (Json.obj [])).objGet "ReadingCelsius" = Json.int 25 ∧
    (objectInterfacesToJson "f1" "fan_tach"
        [(sensorValueInterface, [("Value", .int64 4200)])]
        (Json.obj [])).objGet "Reading" = Json.int 4200 ∧
    Json.int 25 ≠ Json.float 25 :=
  ⟨rfl, rfl, fun h => Json.noConfusion h⟩

/-- C5 counterexample: `setErrorStatus` carries no error code or detail at
all.  After two operations mark the scope errored (in the claim's terms, with
two distinct details), the finalized response body is the empty JSON object —
it records no detail whatsoever, so the finalized "error detail" cannot equal
the first call's detail — and the second call was a no-op on the state. -/
theorem first_error_detail_counterexample :
    (sensorAsyncRespDtor
        (setErrorStatus (setErrorStatus
          ⟨HStatus.ok, Json.obj [("Temperatures", Json.arr [])], 0⟩))).jsonValue =
      Json.obj [] ∧
    setErrorStatus (setErrorStatus
        ⟨HStatus.ok, Json.obj [("Temperatures", Json.arr [])], 0⟩) =
      setErrorStatus ⟨HStatus.ok, Json.obj [("Temperatures", Json.arr [])], 0⟩ :=
  ⟨rfl, rfl⟩

/-- C5 amended: `setErrorStatus` takes no code or detail; every call sets the
fixed status `internal_server_error`, so calls after the first leave the state
unchanged (order-irrelevant), and the finalized response carries that fixed
status with an empty body — there is no per-call error detail slot. -/
theorem setErrorStatus_idempotent_fixed_error (r : Response) :
    setErrorStatus (setErrorStatus r) = setErrorStatus r ∧
    (setErrorStatus r).status = HStatus.internalServerError ∧
    (sensorAsyncRespDtor (setErrorStatus r)).jsonValue = Json.obj [] := by
  refine ⟨rfl, rfl, ?_⟩
  simp [sensorAsyncRespDtor, setErrorStatus]

/-- The Thermal handler's scope configuration (`thermal.hpp`,
`OCP_CUSTOM_FLAG` branch): type filter `{fan_tach, temperature}` given as
sensor-path prefixes, chassis sub-node "Thermal"; `ch1` stands for the
chassis id taken from the request path. -/
def thermalAsyncResp : SensorAsyncResp :=
  { chassisId := "ch1",
    types := ["/xyz/openbmc_project/sensors/fan_tach",
              "/xyz/openbmc_project/sensors/temperature"],
    chassisSubNode := "Thermal" }

/-- An object whose path has fewer than 6 segments is skipped by the
Stage-2 loop body. -/
theorem processObject_short (a : SensorAsyncResp) (jv : Json) (p : String)
    (i : InterfacesDict) (h : (boostSplitSlash p).length < 6) :
    processObject a jv p i = jv := by
  simp [processObject, h]

/-- An object whose sensor type (path segment 4) fails the `strstr` test
against every entry of the type filter is skipped by the Stage-2 loop body. -/
theorem processObject_unmatched (a : SensorAsyncResp) (jv : Json) (p : String)
    (i : InterfacesDict) (h6 : ¬(boostSplitSlash p).length < 6)
    (hm : (a.types.any
        (fun t => strstrFound t ((boostSplitSlash p).getD 4 ""))) = false) :
    processObject a jv p i = jv := by
  simp only [processObject]
  rw [if_neg h6, if_pos hm]

/-- C8: a managed object whose path splits into fewer than 6 segments is
silently skipped: the reply processes exactly as if the object were absent
(so it contributes nothing and the remaining objects are still processed),
and a reply consisting only of such an object leaves the response — body and
status — untouched. -/
theorem short_path_skipped (a : SensorAsyncResp) (r : Response)
    (pre post : ManagedObjectsVectorType) (p : String) (i : InterfacesDict)
    (h : (boostSplitSlash p).length < 6) :
    getManagedObjectsCb a r 0 (pre ++ (p, i) :: post) =
      getManagedObjectsCb a r 0 (pre ++ post) ∧
    getManagedObjectsCb a r 0 [(p, i)] = r := by
  constructor
  · have hfold : ∀ jv : Json,
        (pre ++ (p, i) :: post).foldl
            (fun jv o => processObject a jv o.1 o.2) jv =
          (pre ++ post).foldl (fun jv o => processObject a jv o.1 o.2) jv := by
      intro jv
      rw [List.foldl_append, List.foldl_append, List.foldl_cons,
        processObject_short a _ p i h]
    simp [getManagedObjectsCb, hfold]
  · simp [getManagedObjectsCb, processObject_short a _ p i h]

/-- C8 witness: the 3-segment path is skipped and the single-object reply
leaves the response unchanged. -/
theorem short_path_skipped_witness :
    getManagedObjectsCb thermalAsyncResp ⟨HStatus.ok, Json.obj [], 0⟩ 0
        ([] ++ ("/xyz/short", []) :: []) =
      getManagedObjectsCb thermalAsyncResp ⟨HStatus.ok, Json.obj [], 0⟩ 0
        ([] ++ []) ∧
    getManagedObjectsCb thermalAsyncResp ⟨HStatus.ok, Json.obj [], 0⟩ 0
        [("/xyz/short", [])] = ⟨HStatus.ok, Json.obj [], 0⟩ :=
  short_path_skipped thermalAsyncResp ⟨HStatus.ok, Json.obj [], 0⟩ [] []
    "/xyz/short" [] (by decide)

/-- Formalisation of the claim's notion of "the categories in the requested
type filter": each filter entry is a sensor-type path (such as
"/xyz/openbmc_project/sensors/fan_tach") whose category is its last path
segment. -/
def requestedCategories (types : List String) : List String :=
  types.map (fun t => (boostSplitSlash t).getLastD "")

/-- C7 counterexample: with the Thermal filter `{fan_tach, temperature}`, the
category "fan" is not in the requested type filter, yet an object at
`.../fan/f0` is not skipped: it contributes a `Fans` entry, because the code
matches categories by `strstr` substring test ("fan" occurs inside
"fan_tach"), not by membership. -/
theorem category_filter_membership_counterexample :
    "fan" ∉ requestedCategories thermalAsyncResp.types ∧
    ((processObject thermalAsyncResp (Json.obj [])
        "/xyz/openbmc_project/sensors/fan/f0"
        [(sensorValueInterface, [("Value", .int64 1000)])]).objGet
      "Fans").asArrayElems.length = 1 := by
  constructor
  · decide
  · rfl

/-- C7 amended: the category is read from path segment index 4 (the fixed
position after `boost::split`, whose leading token is empty), and an object
is skipped — contributing nothing to the document and leaving the status
untouched — when its category fails the `strstr` substring test against
every entry of the scope's type filter; the test is substring matching, not
membership, so a category that occurs inside a filter entry is accepted. -/
theorem unmatched_category_skipped (a : SensorAsyncResp) (r : Response)
    (p : String) (i : InterfacesDict) (h6 : ¬(boostSplitSlash p).length < 6)
    (hm : (a.types.any
        (fun t => strstrFound t ((boostSplitSlash p).getD 4 ""))) = false) :
    getManagedObjectsCb a r 0 [(p, i)] = r := by
  simp [getManagedObjectsCb, processObject_unmatched a _ p i h6 hm]

/-- C7 witness: a voltage object under the Thermal filter is skipped and the
response is unchanged. -/
theorem unmatched_category_skipped_witness :
    getManagedObjectsCb thermalAsyncResp ⟨HStatus.ok, Json.obj [], 0⟩ 0
        [("/xyz/openbmc_project/sensors/voltage/v0",
          [(sensorValueInterface, [("Value", .int64 5)])])] =
      ⟨HStatus.ok, Json.obj [], 0⟩ :=
  unmatched_category_skipped thermalAsyncResp ⟨HStatus.ok, Json.obj [], 0⟩
    "/xyz/openbmc_project/sensors/voltage/v0"
    [(sensorValueInterface, [("Value", .int64 5)])] (by decide) (by decide)

/-- C6 counterexample: an object of recognized category (temperature) whose
interface dictionary lacks the sensor value interface still produces an
entry in the category array — the entry is pushed before
`objectInterfacesToJson` checks for the value interface, so the array gets a
stub holding only `@odata.id`. -/
theorem missing_value_interface_entry_counterexample :
    ((processObject thermalAsyncResp (Json.obj [])
        "/xyz/openbmc_project/sensors/temperature/t1" []).objGet
      "Temperatures").asArrayElems =
      [Json.obj [("@odata.id",
        Json.str "/redfish/v1/Chassis/ch1/Thermal#/t1")]] := rfl

/-- C6 amended: every object surviving the path-length and category checks
appends exactly one entry to its category array; the value-interface check
only gates the sensor data fields, so an object without the value interface
contributes a stub entry holding only `@odata.id`. -/
theorem missing_value_interface_stub_entry (a : SensorAsyncResp) (jv : Json)
    (ifaces : InterfacesDict)
    (hmatch : a.types.any (fun t => strstrFound t "temperature") = true)
    (hval : ifaces.lookup sensorValueInterface = none) :
    processObject a jv "/xyz/openbmc_project/sensors/temperature/t1" ifaces =
      jv.objSet "Temperatures"
        (.arr ((jv.objGet "Temperatures").asArrayElems ++
          [Json.obj [("@odata.id",
            Json.str ("/redfish/v1/Chassis/" ++ a.chassisId ++ "/" ++
              a.chassisSubNode ++ "#/" ++ "t1"))]])) := by
  have hsplit : boostSplitSlash "/xyz/openbmc_project/sensors/temperature/t1" =
      ["", "xyz", "openbmc_project", "sensors", "temperature", "t1"] := by
    decide
  simp [processObject, hsplit, hmatch, objectInterfacesToJson, hval,
    Json.objSet, Json.setField]

/-- C6 witness: with an empty interface dictionary the appended entry is
exactly the `@odata.id` stub. -/
theorem missing_value_interface_stub_entry_witness :
    processObject thermalAsyncResp (Json.obj [])
        "/xyz/openbmc_project/sensors/temperature/t1" [] =
      (Json.obj []).objSet "Temperatures"
        (.arr (((Json.obj []).objGet "Temperatures").asArrayElems ++
          [Json.obj [("@odata.id",
            Json.str ("/redfish/v1/Chassis/" ++ "ch1" ++ "/" ++
              "Thermal" ++ "#/" ++ "t1"))]])) :=
  missing_value_interface_stub_entry thermalAsyncResp (Json.obj []) []
    (by decide) rfl

/-- Writing a property whose destination key differs from `k` leaves the
member `k` unchanged. -/
theorem objGet_writeProperty_ne (f : Bool) (sm : Int) (dict : InterfacesDict)
    (j : Json) (p : String × String × String) (k : String) (h : p.2.2 ≠ k) :
    (writeProperty f sm dict j p).objGet k = j.objGet k := by
  unfold writeProperty
  split
  · rfl
  · split
    · rfl
    · split
      · simp only [ite_self]
        exact objGet_objSet_ne _ _ _ _ (Ne.symm h)
      · by_cases hf : (!f) = true
        · simp only [if_pos hf]
          exact objGet_objSet_ne _ _ _ _ (Ne.symm h)
        · simp only [if_neg hf]
          exact objGet_objSet_ne _ _ _ _ (Ne.symm h)

/-- C10: for any object with the value interface and a recognized category,
the projector writes `Status.State = "Enabled"` and `Status.Health = "OK"`
unconditionally — whatever the object's other properties or thresholds are. -/
theorem status_fields_always_enabled_ok (name sensorType : String)
    (ifaces : InterfacesDict) (vi : PropertyMap) (j0 : Json)
    (hval : ifaces.lookup sensorValueInterface = some vi)
    (htype : sensorType ∈
      ["temperature", "fan", "fan_tach", "voltage", "power", "current"]) :
    ((objectInterfacesToJson name sensorType ifaces j0).objGet
        "Status").objGet "State" = Json.str "Enabled" ∧
    ((objectInterfacesToJson name sensorType ifaces j0).objGet
        "Status").objGet "Health" = Json.str "OK" := by
  fin_cases htype <;>
    (constructor <;>
      simp [objectInterfacesToJson, hval, Json.objSet2,
        objGet_writeProperty_ne, objGet_objSet_same, objGet_objSet_ne])

/-- C10 witness: a temperature object with a value interface holding only a
raw Value still gets `Status.State = "Enabled"` and `Status.Health = "OK"`. -/
theorem status_fields_always_enabled_ok_witness :
    ((objectInterfacesToJson "t1" "temperature"
        [(sensorValueInterface, [("Value", SensorVariant.int64 1)])]
        (Json.obj [])).objGet "Status").objGet "State" = Json.str "Enabled" ∧
    ((objectInterfacesToJson "t1" "temperature"
        [(sensorValueInterface, [("Value", SensorVariant.int64 1)])]
        (Json.obj [])).objGet "Status").objGet "Health" = Json.str "OK" :=
  status_fields_always_enabled_ok "t1" "temperature"
    [(sensorValueInterface, [("Value", SensorVariant.int64 1)])]
    [("Value", SensorVariant.int64 1)] (Json.obj []) rfl (by decide)
